import Mathlib

/-!
Verification of the VSL (Vacancy Shadow Liability) calculation model
(`src/vsl/model.py`) against its natural-language specification.

The model is shallowly embedded over the real numbers: pandas DataFrames
become lists of typed row records, the per-row float arithmetic of the
source becomes real arithmetic (the Python float `**` operator with a
float exponent becomes `Real.rpow`, with an integer exponent it becomes
`Monoid.npow`), and IEEE division by zero is made explicit through the
`PdNum` type whose `nan` constructor models the pandas not-a-number
result for `0 / 0`.
-/

namespace VSL

/-- One input row of the neighborhood DataFrame (columns produced by
`load_neighborhood_data`). -/
structure InputRow where
  neighborhood : String
  vacant_units : ℝ
  avg_assessed_value : ℝ
  years_vacant_avg : ℝ

/-- The scenario parameter mapping consumed by the model functions.
`projection_years` is an integer, as in the Python config; the source
iterates `range(1, years + 1)`, which is empty when `years <= 0`. -/
structure Params where
  fire_response_cost : ℝ
  police_response_cost : ℝ
  code_enforcement_cost : ℝ
  demolition_amortized_cost : ℝ
  blight_remediation_cost : ℝ
  spillover_multiplier : ℝ
  tax_rate : ℝ
  assessment_decay_rate : ℝ
  discount_rate : ℝ
  projection_years : ℤ

/-- Result of a pandas float division: a finite number, or one of the
IEEE non-finite results produced when the divisor is zero. -/
inductive PdNum where
  | num (x : ℝ)
  | nan
  | posInf
  | negInf

noncomputable section

/-- Pandas elementwise float division: `0 / 0 = NaN`, `x / 0 = ±inf` for
`x ≠ 0`, ordinary division otherwise. -/
def pdDiv (x y : ℝ) : PdNum :=
  if y = 0 then
    if x = 0 then PdNum.nan else if 0 < x then PdNum.posInf else PdNum.negInf
  else PdNum.num (x / y)

/-- The scalar per-unit annual cost of `calculate_direct_costs`:
the five cost parameters are summed and then multiplied by the
spillover multiplier (`per_unit_cost *= params["spillover_multiplier"]`). -/
def perUnitCost (params : Params) : ℝ :=
  (params.fire_response_cost
    + params.police_response_cost
    + params.code_enforcement_cost
    + params.demolition_amortized_cost
    + params.blight_remediation_cost) * params.spillover_multiplier

/-- Row after `calculate_direct_costs`: the input columns plus the two
direct-cost columns the function assigns. -/
structure CostRow extends InputRow where
  direct_cost_per_unit : ℝ
  direct_cost_total : ℝ

/-- `calculate_direct_costs`: copies the frame and assigns
`direct_cost_per_unit` (the scalar broadcast to every row) and
`direct_cost_total = vacant_units * per_unit_cost`. -/
def calculate_direct_costs (df : List InputRow) (params : Params) : List CostRow :=
  df.map fun r =>
    { toInputRow := r
      direct_cost_per_unit := perUnitCost params
      direct_cost_total := r.vacant_units * perUnitCost params }

/-- The body of the per-row loop of `calculate_foregone_tax_pv`:
`current_value = base_value * (1 - decay_rate) ** years_already_vacant`
(float exponent, hence `Real.rpow`), then for each `year` in
`range(1, years + 1)` the projected value decays from `current_value`
by `(1 - decay_rate) ** year` (integer exponent), is taxed, and is
discounted by `1 / (1 + discount_rate) ** year`; the accumulated present
value is finally scaled by `units`. -/
def foregonePvRow (params : Params) (units base_value years_already_vacant : ℝ) : ℝ :=
  let current_value :=
    base_value * ((1 - params.assessment_decay_rate) ^ years_already_vacant)
  let pv_total :=
    (Finset.range params.projection_years.toNat).sum fun t =>
      let year := t + 1
      let projected_value := current_value * ((1 - params.assessment_decay_rate) ^ year)
      let annual_tax := projected_value * params.tax_rate
      let pv_factor := 1 / ((1 + params.discount_rate) ^ year)
      annual_tax * pv_factor
  pv_total * units

/-- Row after `calculate_foregone_tax_pv` (as invoked inside
`calculate_vsl`, on the output of the direct-cost stage). -/
structure TaxRow extends CostRow where
  foregone_tax_pv : ℝ

/-- `calculate_foregone_tax_pv`: copies the frame and assigns the
`foregone_tax_pv` column computed row by row by `foregonePvRow`. -/
def calculate_foregone_tax_pv (df : List CostRow) (params : Params) : List TaxRow :=
  df.map fun r =>
    { toCostRow := r
      foregone_tax_pv :=
        foregonePvRow params r.vacant_units r.avg_assessed_value r.years_vacant_avg }

/-- Row after `calculate_vsl`: all previous columns plus the total and
the per-unit figure (a pandas division, hence possibly non-finite). -/
structure VslRow extends TaxRow where
  total_vsl : ℝ
  vsl_per_unit : PdNum

/-- `calculate_vsl`: runs the two calculators in sequence, then assigns
`total_vsl = direct_cost_total + foregone_tax_pv` and
`vsl_per_unit = total_vsl / vacant_units`. -/
def calculate_vsl (df : List InputRow) (params : Params) : List VslRow :=
  let result := calculate_foregone_tax_pv (calculate_direct_costs df params) params
  result.map fun r =>
    { toTaxRow := r
      total_vsl := r.direct_cost_total + r.foregone_tax_pv
      vsl_per_unit := pdDiv (r.direct_cost_total + r.foregone_tax_pv) r.vacant_units }

/-- Pandas `Series.max` over the modelled column (defined on nonempty
lists; the empty case is unreachable in the summarizer model). -/
def maxList : List ℝ → ℝ
  | [] => 0
  | [x] => x
  | x :: y :: ys => max x (maxList (y :: ys))

/-- Pandas `Series.idxmax` on a default-integer-index frame: the index
of the first occurrence of the maximum value. -/
def argmaxFirst : List ℝ → ℕ
  | [] => 0
  | [_] => 0
  | x :: y :: ys => if maxList (y :: ys) ≤ x then 0 else argmaxFirst (y :: ys) + 1

/-- The one summary row assembled by `generate_citywide_summary`. -/
structure Summary where
  scenario : String
  total_neighborhoods : ℕ
  total_vacant_units : ℝ
  total_direct_costs : ℝ
  total_foregone_tax_pv : ℝ
  total_vsl : ℝ
  avg_vsl_per_unit : PdNum
  max_neighborhood_vsl : ℝ
  max_neighborhood_name : String

/-- The summary record as built by the dict literal in
`generate_citywide_summary` (for a nonempty frame). -/
def mkCitywideSummary (df : List VslRow) (scenario : String) : Summary :=
  { scenario := scenario
    total_neighborhoods := df.length
    total_vacant_units := (df.map fun r => r.vacant_units).sum
    total_direct_costs := (df.map fun r => r.direct_cost_total).sum
    total_foregone_tax_pv := (df.map fun r => r.foregone_tax_pv).sum
    total_vsl := (df.map fun r => r.total_vsl).sum
    avg_vsl_per_unit :=
      pdDiv ((df.map fun r => r.total_vsl).sum) ((df.map fun r => r.vacant_units).sum)
    max_neighborhood_vsl := maxList (df.map fun r => r.total_vsl)
    max_neighborhood_name :=
      (df.map fun r => r.neighborhood).getD (argmaxFirst (df.map fun r => r.total_vsl)) "" }

/-- `generate_citywide_summary`: on an empty frame the `idxmax` call
raises before the summary row is built (modelled as `Except.error`);
otherwise the result is a one-row DataFrame, modelled as a one-element
list. -/
def generate_citywide_summary (df : List VslRow) (scenario : String) :
    Except String (List Summary) :=
  if df.isEmpty then Except.error "attempt to get argmax of an empty sequence"
  else Except.ok [mkCitywideSummary df scenario]

/-!
Heap model of DataFrame mutation, used to verify the frame property:
each model function first copies its argument (`result = df.copy()`) and
then assigns columns only on the copy, so the frame of the caller is
unchanged. Frames are columnar (named columns of numbers, strings or
division results), the store is a list of frames addressed by
allocation index, and column assignment mutates the store in place.
-/

/-- The payload of one DataFrame column. -/
inductive ColData where
  | nums (xs : List ℝ)
  | strs (xs : List String)
  | divs (xs : List PdNum)

/-- A DataFrame as a sequence of named columns. -/
abbrev Frame := List (String × ColData)

/-- Assign a column: replace it if present, append it otherwise. -/
def setCol (f : Frame) (c : String) (d : ColData) : Frame :=
  if f.any fun p => p.1 = c then f.map fun p => if p.1 = c then (c, d) else p
  else f ++ [(c, d)]

/-- Read a numeric column (empty if absent or non-numeric). -/
def getNums (f : Frame) (c : String) : List ℝ :=
  match f.lookup c with
  | some (ColData.nums xs) => xs
  | _ => []

/-- Read a string column (empty if absent or non-string). -/
def getStrs (f : Frame) (c : String) : List String :=
  match f.lookup c with
  | some (ColData.strs xs) => xs
  | _ => []

/-- The heap of live DataFrames, addressed by allocation index. -/
abbrev Store := List Frame

/-- `df.copy()` / `pd.DataFrame(...)`: allocate a fresh frame. -/
def allocF (σ : Store) (f : Frame) : Store × ℕ := (σ ++ [f], σ.length)

/-- Dereference a frame handle. -/
def readF (σ : Store) (h : ℕ) : Frame := σ.getD h []

/-- `frame[col] = data`: in-place column assignment on the frame at `h`. -/
def writeCol (σ : Store) (h : ℕ) (c : String) (d : ColData) : Store :=
  σ.set h (setCol (readF σ h) c d)

/-- `calculate_direct_costs` as a store program: copy the input frame,
then assign the two cost columns on the copy. -/
def calculate_direct_costs_prog (σ : Store) (df : ℕ) (params : Params) : Store × ℕ :=
  let f := readF σ df
  let a := allocF σ f
  let puc := perUnitCost params
  let units := getNums f "vacant_units"
  let σ2 := writeCol a.1 a.2 "direct_cost_per_unit" (ColData.nums (units.map fun _ => puc))
  let σ3 := writeCol σ2 a.2 "direct_cost_total" (ColData.nums (units.map fun u => u * puc))
  (σ3, a.2)

/-- `calculate_foregone_tax_pv` as a store program: copy the input
frame, then assign the per-row present values on the copy. -/
def calculate_foregone_tax_pv_prog (σ : Store) (df : ℕ) (params : Params) : Store × ℕ :=
  let f := readF σ df
  let a := allocF σ f
  let triples := (getNums f "vacant_units").zip
    ((getNums f "avg_assessed_value").zip (getNums f "years_vacant_avg"))
  let pvs := triples.map fun uvy => foregonePvRow params uvy.1 uvy.2.1 uvy.2.2
  let σ2 := writeCol a.1 a.2 "foregone_tax_pv" (ColData.nums pvs)
  (σ2, a.2)

/-- `calculate_vsl` as a store program: run the two calculator programs
and assign the total and per-unit columns on the frame returned by the
second (itself a fresh copy). -/
def calculate_vsl_prog (σ : Store) (df : ℕ) (params : Params) : Store × ℕ :=
  let s1 := calculate_direct_costs_prog σ df params
  let s2 := calculate_foregone_tax_pv_prog s1.1 s1.2 params
  let f := readF s2.1 s2.2
  let totals := (getNums f "direct_cost_total").zipWith (· + ·) (getNums f "foregone_tax_pv")
  let σ3 := writeCol s2.1 s2.2 "total_vsl" (ColData.nums totals)
  let f2 := readF σ3 s2.2
  let perUnit := ((getNums f2 "total_vsl").zip (getNums f2 "vacant_units")).map
    fun tu => pdDiv tu.1 tu.2
  let σ4 := writeCol σ3 s2.2 "vsl_per_unit" (ColData.divs perUnit)
  (σ4, s2.2)

/-- `generate_citywide_summary` as a store program: read-only on the
input frame; on a nonempty frame it allocates the fresh one-row summary
frame, on an empty frame it fails. -/
def generate_citywide_summary_prog (σ : Store) (df : ℕ) (scenario : String) :
    Store × Except String ℕ :=
  let f := readF σ df
  let names := getStrs f "neighborhood"
  if names.isEmpty then
    (σ, Except.error "attempt to get argmax of an empty sequence")
  else
    let totals := getNums f "total_vsl"
    let units := getNums f "vacant_units"
    let out : Frame :=
      [("scenario", ColData.strs [scenario]),
       ("total_vacant_units", ColData.nums [units.sum]),
       ("total_direct_costs", ColData.nums [(getNums f "direct_cost_total").sum]),
       ("total_foregone_tax_pv", ColData.nums [(getNums f "foregone_tax_pv").sum]),
       ("total_vsl", ColData.nums [totals.sum]),
       ("avg_vsl_per_unit", ColData.divs [pdDiv totals.sum units.sum]),
       ("max_neighborhood_vsl", ColData.nums [maxList totals]),
       ("max_neighborhood_name", ColData.strs [names.getD (argmaxFirst totals) ""])]
    let a := allocF σ out
    (a.1, Except.ok a.2)

/-!
Specification-side definitions (transcribed from the wording of the
specification, to be compared with the source-side definitions above),
and concrete inputs used by witnesses and counterexamples.
-/

/-- The closed-form formula of the specification for the foregone-tax
present value of one record:
`vacant_units * sum over t of avg_assessed_value * (1 - decay) ^ (years_vacant + t) * tax_rate / (1 + discount) ^ t`,
with a real exponent `years_vacant + t` on the decay factor. -/
def foregonePvSpec (params : Params) (units base_value yv : ℝ) : ℝ :=
  units * (Finset.range params.projection_years.toNat).sum fun t =>
    base_value * ((1 - params.assessment_decay_rate) ^ (yv + ((t : ℝ) + 1)))
      * params.tax_rate / ((1 + params.discount_rate) ^ (t + 1))

/-- The arithmetic mean of the per-neighborhood `vsl_per_unit` values
(the quantity the specification says `avg_vsl_per_unit` must NOT be). -/
def meanVslPerUnit (df : List VslRow) : ℝ :=
  ((df.map fun r => r.total_vsl / r.vacant_units).sum) / (df.length : ℝ)

/-- Scenario parameters with `projection_years = 0`, used to test the
missing validation of the projection horizon. -/
def paramsYearsZero : Params :=
  { fire_response_cost := 100, police_response_cost := 50, code_enforcement_cost := 25,
    demolition_amortized_cost := 10, blight_remediation_cost := 5, spillover_multiplier := 2,
    tax_rate := 1 / 100, assessment_decay_rate := 1 / 10, discount_rate := 1 / 20,
    projection_years := 0 }

/-- A concrete direct-cost row fed to the foregone-tax stage. -/
def rowElm : CostRow :=
  { neighborhood := "Elm", vacant_units := 12, avg_assessed_value := 150000,
    years_vacant_avg := 2, direct_cost_per_unit := 380, direct_cost_total := 4560 }

/-- Scenario parameters with a nontrivial decay rate and a two-year
horizon, used to witness the closed-form formula. -/
def paramsDecay : Params :=
  { fire_response_cost := 200, police_response_cost := 100, code_enforcement_cost := 50,
    demolition_amortized_cost := 25, blight_remediation_cost := 25, spillover_multiplier := 1,
    tax_rate := 1 / 50, assessment_decay_rate := 1 / 2, discount_rate := 1 / 10,
    projection_years := 2 }

/-- Degenerate scenario parameters (unit direct cost, full tax rate, no
decay, no discounting, one projection year) under which the pipeline
output is easy to evaluate exactly. -/
def paramsPlain : Params :=
  { fire_response_cost := 1, police_response_cost := 0, code_enforcement_cost := 0,
    demolition_amortized_cost := 0, blight_remediation_cost := 0, spillover_multiplier := 1,
    tax_rate := 1, assessment_decay_rate := 0, discount_rate := 0,
    projection_years := 1 }

/-- Two input rows whose vacant-unit counts differ, so that the
unit-weighted citywide average and the arithmetic mean of the per-unit
values disagree. -/
def rowsVarying : List InputRow :=
  [{ neighborhood := "A", vacant_units := 1, avg_assessed_value := 0, years_vacant_avg := 0 },
   { neighborhood := "B", vacant_units := 2, avg_assessed_value := 3, years_vacant_avg := 0 }]

/-- A single fully-computed result row, used to witness the nonempty
branch of the summarizer. -/
def rowOak : VslRow :=
  { neighborhood := "Oak", vacant_units := 1, avg_assessed_value := 10,
    years_vacant_avg := 0, direct_cost_per_unit := 2, direct_cost_total := 2,
    foregone_tax_pv := 3, total_vsl := 5, vsl_per_unit := PdNum.num 5 }

/-- First of two result rows sharing the maximum `total_vsl`. -/
def rowTieA : VslRow :=
  { neighborhood := "TieA", vacant_units := 1, avg_assessed_value := 10,
    years_vacant_avg := 0, direct_cost_per_unit := 2, direct_cost_total := 2,
    foregone_tax_pv := 3, total_vsl := 5, vsl_per_unit := PdNum.num 5 }

/-- Second of two result rows sharing the maximum `total_vsl`. -/
def rowTieB : VslRow :=
  { neighborhood := "TieB", vacant_units := 5, avg_assessed_value := 10,
    years_vacant_avg := 0, direct_cost_per_unit := 1, direct_cost_total := 5,
    foregone_tax_pv := 0, total_vsl := 5, vsl_per_unit := PdNum.num 1 }

/-- A one-frame store used to witness the frame property. -/
def storeOne : Store :=
  [[("neighborhood", ColData.strs ["A"]), ("vacant_units", ColData.nums [3])]]

/-- An input row with no vacant units. -/
def rowZeroUnits : InputRow :=
  { neighborhood := "Z", vacant_units := 0, avg_assessed_value := 5, years_vacant_avg := 1 }

/-- The result row `calculate_vsl` produces for `rowZeroUnits` under
`paramsPlain`, written out field by field. -/
def vslRowZeroUnits : VslRow :=
  { neighborhood := "Z", vacant_units := 0, avg_assessed_value := 5, years_vacant_avg := 1,
    direct_cost_per_unit := perUnitCost paramsPlain,
    direct_cost_total := 0 * perUnitCost paramsPlain,
    foregone_tax_pv := foregonePvRow paramsPlain 0 5 1,
    total_vsl := 0 * perUnitCost paramsPlain + foregonePvRow paramsPlain 0 5 1,
    vsl_per_unit := pdDiv (0 * perUnitCost paramsPlain + foregonePvRow paramsPlain 0 5 1) 0 }

/-!
Theorems.
-/

/-- C2: for every input table and scenario parameters,
`calculate_direct_costs` gives every output row the same
`direct_cost_per_unit`, namely the scalar
`(fire + police + code_enforcement + demolition + blight) * spillover_multiplier`
that depends only on the parameters, and sets
`direct_cost_total = vacant_units * per_unit_cost` on each row. -/
theorem direct_costs_per_unit_row_independent (df : List InputRow) (params : Params) :
    (∀ r ∈ calculate_direct_costs df params,
        r.direct_cost_per_unit = perUnitCost params ∧
        r.direct_cost_total = r.vacant_units * perUnitCost params) ∧
    ∀ r ∈ calculate_direct_costs df params, ∀ s ∈ calculate_direct_costs df params,
        r.direct_cost_per_unit = s.direct_cost_per_unit := by
  constructor
  · intro r hr
    simp only [calculate_direct_costs, List.mem_map] at hr
    obtain ⟨a, _, rfl⟩ := hr
    exact ⟨rfl, rfl⟩
  · intro r hr s hs
    simp only [calculate_direct_costs, List.mem_map] at hr hs
    obtain ⟨a, _, rfl⟩ := hr
    obtain ⟨b, _, rfl⟩ := hs
    rfl

theorem direct_costs_per_unit_row_independent_witness :
    (∀ r ∈ calculate_direct_costs rowsVarying paramsPlain,
        r.direct_cost_per_unit = perUnitCost paramsPlain ∧
        r.direct_cost_total = r.vacant_units * perUnitCost paramsPlain) ∧
    ∀ r ∈ calculate_direct_costs rowsVarying paramsPlain,
      ∀ s ∈ calculate_direct_costs rowsVarying paramsPlain,
        r.direct_cost_per_unit = s.direct_cost_per_unit :=
  direct_costs_per_unit_row_independent rowsVarying paramsPlain

/-- C3: every row of the table produced by `calculate_vsl` satisfies
`total_vsl = direct_cost_total + foregone_tax_pv` exactly. -/
theorem total_vsl_eq_direct_plus_foregone (df : List InputRow) (params : Params) :
    ∀ r ∈ calculate_vsl df params,
      r.total_vsl = r.direct_cost_total + r.foregone_tax_pv := by
  intro r hr
  simp only [calculate_vsl, List.mem_map] at hr
  obtain ⟨a, _, rfl⟩ := hr
  rfl

theorem total_vsl_eq_direct_plus_foregone_witness :
    vslRowZeroUnits ∈ calculate_vsl [rowZeroUnits] paramsPlain ∧
    vslRowZeroUnits.total_vsl =
      vslRowZeroUnits.direct_cost_total + vslRowZeroUnits.foregone_tax_pv :=
  ⟨List.mem_singleton.mpr rfl,
   total_vsl_eq_direct_plus_foregone [rowZeroUnits] paramsPlain vslRowZeroUnits
     (List.mem_singleton.mpr rfl)⟩

/-- C9: when `assessment_decay_rate = 0`, the foregone-tax present value
of a record does not depend on `years_vacant_avg`: two records agreeing
on every other input field get the same value. -/
theorem decay_zero_independent_of_years_vacant (params : Params) (u v y₁ y₂ : ℝ)
    (hd : params.assessment_decay_rate = 0) :
    foregonePvRow params u v y₁ = foregonePvRow params u v y₂ := by
  simp [foregonePvRow, hd, Real.one_rpow]

theorem decay_zero_independent_of_years_vacant_witness :
    paramsPlain.assessment_decay_rate = 0 ∧
    foregonePvRow paramsPlain 4 100 1 = foregonePvRow paramsPlain 4 100 7 :=
  ⟨rfl, decay_zero_independent_of_years_vacant paramsPlain 4 100 1 7 rfl⟩

/-- C8: a row with `vacant_units = 0` does not abort the pipeline: its
`foregone_tax_pv`, `direct_cost_total` and `total_vsl` are all computed
(and equal zero), and its `vsl_per_unit` is the not-a-number sentinel
produced by the pandas division `0 / 0`. -/
theorem zero_vacant_units_nan_per_unit (df : List InputRow) (params : Params) :
    ∀ r ∈ calculate_vsl df params, r.vacant_units = 0 →
      r.foregone_tax_pv = 0 ∧ r.direct_cost_total = 0 ∧ r.total_vsl = 0 ∧
      r.vsl_per_unit = PdNum.nan := by
  intro r hr h0
  simp only [calculate_vsl, calculate_foregone_tax_pv, calculate_direct_costs,
    List.map_map, List.mem_map] at hr
  obtain ⟨a, _, rfl⟩ := hr
  have ha : a.vacant_units = 0 := h0
  refine ⟨?_, ?_, ?_, ?_⟩ <;> simp [foregonePvRow, pdDiv, ha]

theorem zero_vacant_units_nan_per_unit_witness :
    vslRowZeroUnits ∈ calculate_vsl [rowZeroUnits] paramsPlain ∧
    vslRowZeroUnits.vacant_units = 0 ∧
    vslRowZeroUnits.foregone_tax_pv = 0 ∧ vslRowZeroUnits.direct_cost_total = 0 ∧
    vslRowZeroUnits.total_vsl = 0 ∧ vslRowZeroUnits.vsl_per_unit = PdNum.nan := by
  have hm : vslRowZeroUnits ∈ calculate_vsl [rowZeroUnits] paramsPlain :=
    List.mem_singleton.mpr rfl
  have h := zero_vacant_units_nan_per_unit [rowZeroUnits] paramsPlain vslRowZeroUnits hm rfl
  exact ⟨hm, rfl, h⟩

/-- C6 counterexample: with `projection_years = 0` the foregone-tax
stage does not fail: it returns normally, with `foregone_tax_pv = 0`,
because the year loop `range(1, years + 1)` is empty and no validation
of the horizon exists anywhere in the source. -/
theorem projection_years_zero_silent_zero :
    calculate_foregone_tax_pv [rowElm] paramsYearsZero =
      [{ toCostRow := rowElm, foregone_tax_pv := 0 }] := by
  simp [calculate_foregone_tax_pv, foregonePvRow, paramsYearsZero]

/-- C6 amended: for `projection_years ≤ 0` the foregone-tax stage does
not raise any error; the projection loop is empty and every output row
has `foregone_tax_pv = 0`. -/
theorem projection_years_nonpos_yields_zero (df : List CostRow) (params : Params)
    (hy : params.projection_years ≤ 0) :
    ∀ r ∈ calculate_foregone_tax_pv df params, r.foregone_tax_pv = 0 := by
  intro r hr
  simp only [calculate_foregone_tax_pv, List.mem_map] at hr
  obtain ⟨a, _, rfl⟩ := hr
  simp [foregonePvRow, Int.toNat_of_nonpos hy]

theorem projection_years_nonpos_yields_zero_witness :
    paramsYearsZero.projection_years ≤ 0 ∧
    ∀ r ∈ calculate_foregone_tax_pv [rowElm] paramsYearsZero, r.foregone_tax_pv = 0 :=
  ⟨by simp [paramsYearsZero],
   projection_years_nonpos_yields_zero [rowElm] paramsYearsZero (by simp [paramsYearsZero])⟩

/-- C7: the summarizer fails (the pandas `idxmax` call raises) exactly
on an empty table, before any summary row is produced, and on a
nonempty table produces exactly one summary row. -/
theorem empty_dataset_error_iff (df : List VslRow) (s : String) :
    ((∃ e, generate_citywide_summary df s = Except.error e) ↔ df = []) ∧
    (df ≠ [] → generate_citywide_summary df s = Except.ok [mkCitywideSummary df s]) := by
  cases df with
  | nil => simp [generate_citywide_summary]
  | cons a t => simp [generate_citywide_summary]

theorem empty_dataset_error_iff_witness :
    (∃ e, generate_citywide_summary [] "base" = Except.error e) ∧
    generate_citywide_summary [rowOak] "base" =
      Except.ok [mkCitywideSummary [rowOak] "base"] :=
  ⟨(empty_dataset_error_iff [] "base").1.2 rfl,
   (empty_dataset_error_iff [rowOak] "base").2 (by simp)⟩

/-- C1: for any record and parameters with a decay rate below one and a
positive projection horizon, the foregone-tax present value computed by
the source (current value backward-projected with a real exponent, then
per-year decay compounded independently from the current value, taxed,
discounted and scaled by units) equals the closed-form sum of the
specification. -/
theorem foregone_tax_pv_closed_form (params : Params) (u v y : ℝ)
    (hd : params.assessment_decay_rate < 1) (_hy : 0 < params.projection_years) :
    foregonePvRow params u v y = foregonePvSpec params u v y := by
  have hb : (0 : ℝ) < 1 - params.assessment_decay_rate := by linarith
  simp only [foregonePvRow, foregonePvSpec]
  rw [mul_comm _ u]
  congr 1
  refine Finset.sum_congr rfl fun t _ => ?_
  have key : (1 - params.assessment_decay_rate) ^ (y + ((t : ℝ) + 1))
      = ((1 - params.assessment_decay_rate) ^ y)
        * ((1 - params.assessment_decay_rate) ^ (t + 1)) := by
    rw [Real.rpow_add hb]
    congr 1
    rw [← Real.rpow_natCast (1 - params.assessment_decay_rate) (t + 1)]
    push_cast
    rfl
  rw [key]
  ring

theorem foregone_tax_pv_closed_form_witness :
    (paramsDecay.assessment_decay_rate < 1 ∧ 0 < paramsDecay.projection_years) ∧
    foregonePvRow paramsDecay 5 80000 3 = foregonePvSpec paramsDecay 5 80000 3 :=
  ⟨⟨by norm_num [paramsDecay], by norm_num [paramsDecay]⟩,
   foregone_tax_pv_closed_form paramsDecay 5 80000 3
     (by norm_num [paramsDecay]) (by norm_num [paramsDecay])⟩

/-- C4: the summarizer computes `avg_vsl_per_unit` as the unit-weighted
average `sum(total_vsl) / sum(vacant_units)` for every nonempty result
table, and this is not the arithmetic mean of the per-neighborhood
`vsl_per_unit` values: on a concrete pipeline output whose rows have
different vacant-unit counts, the two disagree. -/
theorem avg_vsl_per_unit_weighted :
    (∀ (df : List VslRow) (s : String) (out : List Summary),
        generate_citywide_summary df s = Except.ok out →
        ∀ y ∈ out, y.avg_vsl_per_unit =
          pdDiv ((df.map fun r => r.total_vsl).sum) ((df.map fun r => r.vacant_units).sum)) ∧
    (mkCitywideSummary (calculate_vsl rowsVarying paramsPlain) "base").avg_vsl_per_unit ≠
      PdNum.num (meanVslPerUnit (calculate_vsl rowsVarying paramsPlain)) := by
  constructor
  · intro df s out hok y hy
    cases df with
    | nil => simp [generate_citywide_summary] at hok
    | cons a t =>
      simp only [generate_citywide_summary, List.isEmpty_cons, Bool.false_eq_true,
        if_false, Except.ok.injEq] at hok
      subst hok
      simp only [List.mem_singleton] at hy
      subst hy
      rfl
  · norm_num [rowsVarying, paramsPlain, calculate_vsl, calculate_direct_costs,
      calculate_foregone_tax_pv, mkCitywideSummary, meanVslPerUnit, foregonePvRow,
      perUnitCost, pdDiv, Real.rpow_zero, Finset.sum_range_one]

theorem avg_vsl_per_unit_weighted_witness :
    generate_citywide_summary (calculate_vsl rowsVarying paramsPlain) "base" =
      Except.ok [mkCitywideSummary (calculate_vsl rowsVarying paramsPlain) "base"] ∧
    (mkCitywideSummary (calculate_vsl rowsVarying paramsPlain) "base").avg_vsl_per_unit =
      pdDiv (((calculate_vsl rowsVarying paramsPlain).map fun r => r.total_vsl).sum)
        (((calculate_vsl rowsVarying paramsPlain).map fun r => r.vacant_units).sum) := by
  have h : generate_citywide_summary (calculate_vsl rowsVarying paramsPlain) "base" =
      Except.ok [mkCitywideSummary (calculate_vsl rowsVarying paramsPlain) "base"] := by
    simp [generate_citywide_summary, calculate_vsl, calculate_direct_costs,
      calculate_foregone_tax_pv, rowsVarying]
  exact ⟨h, avg_vsl_per_unit_weighted.1 _ "base" _ h _ (by simp)⟩

theorem le_maxList (l : List ℝ) : ∀ x ∈ l, x ≤ maxList l := by
  induction l with
  | nil => simp
  | cons a t ih =>
    intro x hx
    cases t with
    | nil =>
      simp only [List.mem_singleton] at hx
      simp [maxList, hx]
    | cons b u =>
      rcases List.mem_cons.mp hx with rfl | hx'
      · simp [maxList]
      · exact le_trans (ih x hx') (by simp [maxList])

theorem argmaxFirst_lt_length (l : List ℝ) (h : l ≠ []) : argmaxFirst l < l.length := by
  induction l with
  | nil => exact absurd rfl h
  | cons a t ih =>
    cases t with
    | nil => simp [argmaxFirst]
    | cons b u =>
      by_cases hle : maxList (b :: u) ≤ a
      · simp [argmaxFirst, hle]
      · simp only [argmaxFirst, if_neg hle]
        have := ih (by simp)
        simp only [List.length_cons] at this ⊢
        omega

theorem argmaxFirst_attains (l : List ℝ) (h : l ≠ []) :
    l.getD (argmaxFirst l) 0 = maxList l := by
  induction l with
  | nil => exact absurd rfl h
  | cons a t ih =>
    cases t with
    | nil => simp [argmaxFirst, maxList]
    | cons b u =>
      by_cases hle : maxList (b :: u) ≤ a
      · simp only [argmaxFirst, if_pos hle, List.getD_cons_zero, maxList]
        exact (max_eq_left hle).symm
      · have hlt : a < maxList (b :: u) := not_le.mp hle
        simp only [argmaxFirst, if_neg hle, maxList, List.getD_cons_succ]
        rw [ih (by simp)]
        exact (max_eq_right hlt.le).symm

theorem argmaxFirst_first (l : List ℝ) :
    ∀ j < argmaxFirst l, l.getD j 0 < maxList l := by
  induction l with
  | nil => simp [argmaxFirst]
  | cons a t ih =>
    cases t with
    | nil => simp [argmaxFirst]
    | cons b u =>
      intro j hj
      by_cases hle : maxList (b :: u) ≤ a
      · simp [argmaxFirst, hle] at hj
      · have hlt : a < maxList (b :: u) := not_le.mp hle
        simp only [argmaxFirst, if_neg hle] at hj
        simp only [maxList]
        rw [max_eq_right hlt.le]
        cases j with
        | zero => simpa using hlt
        | succ j' =>
          rw [List.getD_cons_succ]
          exact ih j' (by omega)

/-- C5: on any result table (in particular one where several rows share
the maximum `total_vsl`), the summarizer reports `max_neighborhood_vsl`
as the maximum of `total_vsl` over all rows, and `max_neighborhood_name`
as the neighborhood of the first row in input order attaining that
maximum: earlier rows all have strictly smaller (hence different)
`total_vsl`. -/
theorem citywide_max_tie_first_occurrence (df : List VslRow) (s : String) (out : Summary)
    (hok : generate_citywide_summary df s = Except.ok [out])
    (htie : ∃ i j : Fin df.length, (i : ℕ) < (j : ℕ) ∧
      (df.get i).total_vsl = out.max_neighborhood_vsl ∧
      (df.get j).total_vsl = out.max_neighborhood_vsl) :
    (∀ r ∈ df, r.total_vsl ≤ out.max_neighborhood_vsl) ∧
    ∃ k : Fin df.length, out.max_neighborhood_name = (df.get k).neighborhood ∧
      (df.get k).total_vsl = out.max_neighborhood_vsl ∧
      ∀ j : Fin df.length, (j : ℕ) < (k : ℕ) →
        (df.get j).total_vsl ≠ out.max_neighborhood_vsl := by
  have hne : df ≠ [] := by
    intro h
    subst h
    simp [generate_citywide_summary] at hok
  have hout : out = mkCitywideSummary df s := by
    cases df with
    | nil => exact absurd rfl hne
    | cons a t =>
      simp only [generate_citywide_summary, List.isEmpty_cons, Bool.false_eq_true,
        if_false, Except.ok.injEq, List.cons.injEq, and_true] at hok
      exact hok.symm
  subst hout
  have hmapne : df.map (fun r => r.total_vsl) ≠ [] := by
    simpa using hne
  have hk : argmaxFirst (df.map fun r => r.total_vsl) < df.length := by
    have := argmaxFirst_lt_length _ hmapne
    simpa using this
  constructor
  · intro r hr
    exact le_maxList _ _ (List.mem_map_of_mem _ hr)
  · refine ⟨⟨argmaxFirst (df.map fun r => r.total_vsl), hk⟩, ?_, ?_, ?_⟩
    · show (df.map fun r => r.neighborhood).getD (argmaxFirst (df.map fun r => r.total_vsl)) ""
        = _
      rw [List.getD_eq_getElem _ _ (by simpa using hk), List.getElem_map]
      simp
    · have := argmaxFirst_attains _ hmapne
      rw [List.getD_eq_getElem _ _ (by simpa using hk), List.getElem_map] at this
      simpa using this
    · intro j hj
      have := argmaxFirst_first (df.map fun r => r.total_vsl) j hj
      rw [List.getD_eq_getElem _ _ (by simp only [List.length_map]; exact lt_trans hj hk),
        List.getElem_map] at this
      have hne' := ne_of_lt this
      simpa using hne'

theorem citywide_max_tie_first_occurrence_witness :
    (∀ r ∈ [rowTieA, rowTieB],
        r.total_vsl ≤ (mkCitywideSummary [rowTieA, rowTieB] "base").max_neighborhood_vsl) ∧
    ∃ k : Fin ([rowTieA, rowTieB] : List VslRow).length,
      (mkCitywideSummary [rowTieA, rowTieB] "base").max_neighborhood_name =
        (([rowTieA, rowTieB] : List VslRow).get k).neighborhood ∧
      (([rowTieA, rowTieB] : List VslRow).get k).total_vsl =
        (mkCitywideSummary [rowTieA, rowTieB] "base").max_neighborhood_vsl ∧
      ∀ j : Fin ([rowTieA, rowTieB] : List VslRow).length, (j : ℕ) < (k : ℕ) →
        (([rowTieA, rowTieB] : List VslRow).get j).total_vsl ≠
          (mkCitywideSummary [rowTieA, rowTieB] "base").max_neighborhood_vsl := by
  refine citywide_max_tie_first_occurrence [rowTieA, rowTieB] "base" _ (by
    simp [generate_citywide_summary]) ?_
  refine ⟨⟨0, by norm_num⟩, ⟨1, by norm_num⟩, by norm_num, ?_, ?_⟩ <;>
    simp [rowTieA, rowTieB, mkCitywideSummary, maxList]

theorem readF_alloc_lt (σ : Store) (f : Frame) (j : ℕ) (hj : j < σ.length) :
    readF (allocF σ f).1 j = readF σ j := by
  simp only [readF, allocF]
  exact List.getD_append _ _ _ _ hj

theorem readF_write_ne (σ : Store) (h j : ℕ) (c : String) (d : ColData) (hne : h ≠ j) :
    readF (writeCol σ h c d) j = readF σ j := by
  simp only [readF, writeCol, List.getD_eq_getD_get?, List.get?_eq_getElem?]
  rw [List.getElem?_set_ne hne]

theorem direct_prog_len (σ : Store) (df : ℕ) (p : Params) :
    (calculate_direct_costs_prog σ df p).1.length = σ.length + 1 ∧
    (calculate_direct_costs_prog σ df p).2 = σ.length := by
  simp [calculate_direct_costs_prog, allocF, writeCol]

theorem foregone_prog_len (σ : Store) (df : ℕ) (p : Params) :
    (calculate_foregone_tax_pv_prog σ df p).1.length = σ.length + 1 ∧
    (calculate_foregone_tax_pv_prog σ df p).2 = σ.length := by
  simp [calculate_foregone_tax_pv_prog, allocF, writeCol]

theorem direct_prog_frame (σ : Store) (df : ℕ) (p : Params) (j : ℕ) (hj : j < σ.length) :
    readF (calculate_direct_costs_prog σ df p).1 j = readF σ j := by
  simp only [calculate_direct_costs_prog, allocF]
  rw [readF_write_ne _ _ _ _ _ (ne_of_gt hj), readF_write_ne _ _ _ _ _ (ne_of_gt hj)]
  simp only [readF]
  exact List.getD_append _ _ _ _ hj

theorem foregone_prog_frame (σ : Store) (df : ℕ) (p : Params) (j : ℕ) (hj : j < σ.length) :
    readF (calculate_foregone_tax_pv_prog σ df p).1 j = readF σ j := by
  simp only [calculate_foregone_tax_pv_prog, allocF]
  rw [readF_write_ne _ _ _ _ _ (ne_of_gt hj)]
  simp only [readF]
  exact List.getD_append _ _ _ _ hj

theorem vsl_prog_frame (σ : Store) (df : ℕ) (p : Params) (j : ℕ) (hj : j < σ.length) :
    readF (calculate_vsl_prog σ df p).1 j = readF σ j := by
  simp only [calculate_vsl_prog]
  have h1len := (direct_prog_len σ df p).1
  have h2len := (foregone_prog_len (calculate_direct_costs_prog σ df p).1
    (calculate_direct_costs_prog σ df p).2 p).2
  have hne : (calculate_foregone_tax_pv_prog (calculate_direct_costs_prog σ df p).1
      (calculate_direct_costs_prog σ df p).2 p).2 ≠ j := by
    rw [h2len, h1len]
    omega
  rw [readF_write_ne _ _ _ _ _ hne, readF_write_ne _ _ _ _ _ hne]
  rw [foregone_prog_frame _ _ _ _ (by rw [h1len]; omega)]
  exact direct_prog_frame σ df p j hj

theorem summary_prog_frame (σ : Store) (df : ℕ) (s : String) (j : ℕ) (hj : j < σ.length) :
    readF (generate_citywide_summary_prog σ df s).1 j = readF σ j := by
  simp only [generate_citywide_summary_prog, allocF]
  split
  · rfl
  · simp only [readF]
    exact List.getD_append _ _ _ _ hj

/-- C10: each of the four operations, run under the mutable-store
semantics of the source (where `df.copy()` allocates a fresh frame and
column assignment mutates in place), leaves the frame referenced by its
input handle byte-for-byte unchanged: every column of the input
DataFrame of the caller is identical before and after the call. -/
theorem pipeline_preserves_input_frame (σ : Store) (df : ℕ) (p : Params) (s : String)
    (hdf : df < σ.length) :
    readF (calculate_direct_costs_prog σ df p).1 df = readF σ df ∧
    readF (calculate_foregone_tax_pv_prog σ df p).1 df = readF σ df ∧
    readF (calculate_vsl_prog σ df p).1 df = readF σ df ∧
    readF (generate_citywide_summary_prog σ df s).1 df = readF σ df :=
  ⟨direct_prog_frame σ df p df hdf, foregone_prog_frame σ df p df hdf,
   vsl_prog_frame σ df p df hdf, summary_prog_frame σ df s df hdf⟩

theorem pipeline_preserves_input_frame_witness :
    0 < storeOne.length ∧
    readF (calculate_direct_costs_prog storeOne 0 paramsPlain).1 0 = readF storeOne 0 ∧
    readF (calculate_foregone_tax_pv_prog storeOne 0 paramsPlain).1 0 = readF storeOne 0 ∧
    readF (calculate_vsl_prog storeOne 0 paramsPlain).1 0 = readF storeOne 0 ∧
    readF (generate_citywide_summary_prog storeOne 0 "base").1 0 = readF storeOne 0 :=
  ⟨by simp [storeOne],
   pipeline_preserves_input_frame storeOne 0 paramsPlain "base" (by simp [storeOne])⟩

end

end VSL
